import Mathlib

/-!
Verification of the zerank MCP adapter (ZeroEntropy reranking MCP server).

The adapter is a protocol shim: it accepts JSON-RPC 2.0 requests, dispatches
on the `method` field, validates `tools/call` arguments against the
RerankRequest schema, issues a single outbound HTTP POST to the fixed
reranking endpoint, re-validates the upstream response against the
RerankResponse schema, and repackages everything into a JSON-RPC envelope.

We embed the Durable-Object variant of the server (the protocol-conformant
one, with the jsonrpc version check and per-code error responses).  JSON
values are modelled by an inductive `Json` type with rational numbers for
JSON numbers; the upstream world (the result of the single `fetch` call) is
an explicit `FetchOutcome` parameter; the outbound requests issued during
handling are returned explicitly as a list, so "never issues the outbound
call" and "no retry" are statable.  Thrown JS exceptions are modelled as
`Except String` values, and the catch blocks as the pure handlers that
convert them into error responses.
-/

namespace Zerank

/-- JSON values.  Numbers are modelled as rationals (enough for the integer
error codes and the relevance scores handled by this program). -/
inductive Json where
  | null
  | bool (b : Bool)
  | num (q : Rat)
  | str (s : String)
  | arr (elems : List Json)
  | obj (fields : List (String × Json))

/-- Field lookup on a JSON object (`none` on non-objects or missing keys). -/
def Json.lookup (j : Json) (key : String) : Option Json :=
  match j with
  | .obj fields => List.lookup key fields
  | _ => none

mutual

/-- Compact JSON serialization, modelling `JSON.stringify` up to whitespace
formatting (the source pretty-prints with indent 2; the claims are all
"modulo formatting"). -/
def Json.render : Json → String
  | .null => "null"
  | .bool b => cond b "true" "false"
  | .num q => toString q
  | .str s => "\"" ++ s ++ "\""
  | .arr elems => "[" ++ Json.renderElems elems ++ "]"
  | .obj fields => "\x7b" ++ Json.renderFields fields ++ "\x7d"

/-- Comma-separated rendering of array elements. -/
def Json.renderElems : List Json → String
  | [] => ""
  | [j] => Json.render j
  | j :: rest => Json.render j ++ "," ++ Json.renderElems rest

/-- Comma-separated rendering of object fields. -/
def Json.renderFields : List (String × Json) → String
  | [] => ""
  | [p] => "\"" ++ p.1 ++ "\":" ++ Json.render p.2
  | p :: rest => "\"" ++ p.1 ++ "\":" ++ Json.render p.2 ++ "," ++ Json.renderFields rest

end

mutual

/-- All string literals occurring as values inside a JSON value. -/
def Json.strings : Json → List String
  | .null => []
  | .bool _ => []
  | .num _ => []
  | .str s => [s]
  | .arr elems => Json.stringsElems elems
  | .obj fields => Json.stringsFields fields

/-- String literals of a list of JSON values. -/
def Json.stringsElems : List Json → List String
  | [] => []
  | j :: rest => Json.strings j ++ Json.stringsElems rest

/-- String literals of the values of a list of JSON object fields. -/
def Json.stringsFields : List (String × Json) → List String
  | [] => []
  | p :: rest => Json.strings p.2 ++ Json.stringsFields rest

end

/-- The fixed upstream endpoint (`ZERANK_API_BASE` in the source). -/
def ZERANK_API_BASE : String := "https://api.zeroentropy.dev/v1/models/rerank"

/-- MCP error code `PARSE_ERROR`. -/
def PARSE_ERR_CODE : Int := -32700
/-- MCP error code `INVALID_REQUEST`. -/
def INVALID_REQUEST_CODE : Int := -32600
/-- MCP error code `METHOD_NOT_FOUND`. -/
def METHOD_NOT_FOUND_CODE : Int := -32601
/-- MCP error code `INVALID_PARAMS`. -/
def INVALID_PARAMS_CODE : Int := -32602
/-- MCP error code `INTERNAL_ERR`. -/
def INTERNAL_ERR_CODE : Int := -32603

/-- The `arguments` object of a `get_reranking` tool call, as destructured
by `RerankRequestSchema` (fields `query`, `documents`, `api_key`). -/
structure RerankArgs where
  query : String
  documents : List String
  api_key : String

/-- JS `String.prototype.trim`: drop leading and trailing whitespace. -/
def jsTrim (s : String) : String :=
  String.mk (((s.data.dropWhile Char.isWhitespace).reverse.dropWhile
    Char.isWhitespace).reverse)

/-- The checks of `RerankRequestSchema`: `query` a string of length 1..10000,
`documents` an array of 1..1000 strings each non-empty after trimming,
`api_key` a non-empty string. -/
def rerankRequestCheck (args : RerankArgs) : Bool :=
  decide (1 ≤ args.query.length) && decide (args.query.length ≤ 10000) &&
  decide (1 ≤ args.documents.length) && decide (args.documents.length ≤ 1000) &&
  args.documents.all (fun doc => decide (0 < (jsTrim doc).length)) &&
  decide (1 ≤ args.api_key.length)

/-- `RerankRequestSchema.parse`: returns the arguments unchanged on success,
throws (modelled as `.error`) on any constraint violation.  The zod issue
report is abstracted to a single message string. -/
def rerankRequestParse (args : RerankArgs) : Except String RerankArgs :=
  if rerankRequestCheck args then .ok args
  else .error "Invalid rerank request arguments"

/-- One element of the upstream `results` array after the field extraction
`r => (\x7b index: r.index, relevance_score: r.relevance_score \x7d)`.  Both
fields are JSON numbers, modelled as rationals. -/
structure RerankResult where
  index : Rat
  relevance_score : Rat

/-- The checks of `RerankResultSchema`: `index` an integer in [0, 1000],
`relevance_score` a number in [0, 1]. -/
def rerankResultCheck (r : RerankResult) : Bool :=
  decide (r.index.den = 1) && decide (0 ≤ r.index) && decide (r.index ≤ 1000) &&
  decide (0 ≤ r.relevance_score) && decide (r.relevance_score ≤ 1)

/-- The validated upstream response: a `results` array of 1..1000 validated
rerank results. -/
structure RerankResponse where
  results : List RerankResult

/-- `RerankResponseSchema.parse` applied to the extracted `results` array:
array length 1..1000 and every element within the `RerankResultSchema`
bounds, else throws (fail closed — no per-element filtering). -/
def rerankResponseParse (results : List RerankResult) : Except String RerankResponse :=
  if results.length < 1 then .error "Array must contain at least 1 element(s)"
  else if 1000 < results.length then .error "Array must contain at most 1000 element(s)"
  else if results.all rerankResultCheck then .ok ⟨results⟩
  else .error "Invalid rerank result in upstream response"

/-- The single outbound HTTP request built by `makeRerankRequest`. -/
structure HttpRequest where
  url : String
  httpMethod : String
  authorization : String
  contentType : String
  body : Json

/-- The raw upstream response body, after `response.json()`: an object whose
`results` field (when present) is an array of elements carrying `index` and
`relevance_score` numbers. -/
structure UpstreamBody where
  results : Option (List RerankResult)

/-- The outcome of the single `fetch` call: either the network call fails
(a `TypeError` whose message is given — for fetch failures the message
mentions fetch), or an HTTP response with a status code and a JSON body
arrives. -/
inductive FetchOutcome where
  | transportFailure (message : String)
  | response (status : Nat) (body : UpstreamBody)

/-- `s.includes(sub)` for a non-empty `sub`. -/
def stringIncludes (s sub : String) : Bool := 1 < (s.splitOn sub).length

/-- An HTTP response produced by the adapter: status code plus JSON body
(the 204 no-content acknowledgment has body `null`). -/
structure HttpResponse where
  status : Nat
  body : Json

/-- `MCPServer.makeRerankRequest`: builds the POST request to the fixed
endpoint with the `Authorization: Bearer` header and the
`\x7b query, documents \x7d` JSON body, then interprets the fetch outcome:
non-ok statuses throw the 401/429/other messages, a missing `results` field
throws the format message, a fetch `TypeError` is re-wrapped, and otherwise
the extracted results are validated by `RerankResponseSchema.parse`.
Returns the issued request together with the thrown-or-returned result. -/
def makeRerankRequest (query : String) (documents : List String) (apiKey : String)
    (world : FetchOutcome) : HttpRequest × Except String RerankResponse :=
  let req : HttpRequest :=
    { url := ZERANK_API_BASE
      httpMethod := "POST"
      authorization := "Bearer " ++ apiKey
      contentType := "application/json"
      body := Json.obj [("query", Json.str query),
                        ("documents", Json.arr (documents.map Json.str))] }
  let result : Except String RerankResponse :=
    match world with
    | .transportFailure msg =>
        if stringIncludes msg "fetch" then .error ("Request error: " ++ msg)
        else .error msg
    | .response status body =>
        if 200 ≤ status && status ≤ 299 then
          match body.results with
          | none => .error "Invalid API response format"
          | some rs =>
              rerankResponseParse (rs.map fun r =>
                { index := r.index, relevance_score := r.relevance_score })
        else
          if status = 401 then .error "Invalid API key"
          else if status = 429 then .error "Rate limit exceeded"
          else .error ("API error: " ++ toString status)
  (req, result)

/-- `MCPServer.createErrorResponse`: a JSON-RPC error envelope, always sent
with HTTP status 500. -/
def createErrorResponse (message : String) (id : Json) (code : Int) : HttpResponse :=
  { status := 500
    body := Json.obj [("jsonrpc", Json.str "2.0"),
                      ("error", Json.obj [("code", Json.num (code : Rat)),
                                          ("message", Json.str message)]),
                      ("id", id)] }

/-- JSON form of one validated rerank result, as serialized into the
`tools/call` result text. -/
def RerankResult.toJson (r : RerankResult) : Json :=
  Json.obj [("index", Json.num r.index), ("relevance_score", Json.num r.relevance_score)]

/-- JSON form of the validated rerank response. -/
def RerankResponse.toJson (resp : RerankResponse) : Json :=
  Json.obj [("results", Json.arr (resp.results.map RerankResult.toJson))]

/-- The `params` of a `tools/call` request: tool `name` and `arguments`. -/
structure ToolCallParams where
  name : String
  arguments : RerankArgs

/-- The success envelope of a `get_reranking` tool call: a single text
content item whose text is the serialized validated response. -/
def toolCallSuccess (id : Json) (response : RerankResponse) : HttpResponse :=
  { status := 200
    body := Json.obj [("jsonrpc", Json.str "2.0"), ("id", id),
      ("result", Json.obj [("content", Json.arr [
        Json.obj [("type", Json.str "text"),
                  ("text", Json.str (Json.render (RerankResponse.toJson response)))]])])] }

/-- `MCPServer.callTool`: on tool name `get_reranking`, validate the
arguments, issue the rerank request and wrap the validated response as a
single text content item; any throw is caught and becomes an
`INVALID_PARAMS` error response.  On any other name, a `METHOD_NOT_FOUND`
error response.  The first component lists the outbound HTTP requests
issued during the call. -/
def callTool (params : ToolCallParams) (id : Json) (world : FetchOutcome) :
    List HttpRequest × HttpResponse :=
  if params.name = "get_reranking" then
    match rerankRequestParse params.arguments with
    | .error msg => ([], createErrorResponse msg id INVALID_PARAMS_CODE)
    | .ok validatedArgs =>
        let out := makeRerankRequest validatedArgs.query validatedArgs.documents
          validatedArgs.api_key world
        match out.2 with
        | .error msg => ([out.1], createErrorResponse msg id INVALID_PARAMS_CODE)
        | .ok response => ([out.1], toolCallSuccess id response)
  else
    ([], createErrorResponse ("Unknown tool: " ++ params.name) id METHOD_NOT_FOUND_CODE)

/-- A parsed inbound JSON-RPC request body.  `jsonrpc` is `none` when the
field is absent (the source treats an absent or non-"2.0" value the same
way).  `params` carries the tool-call payload; it is ignored by the other
methods. -/
structure RpcRequest where
  jsonrpc : Option String
  id : Json
  rpcMethod : String
  params : ToolCallParams

/-- The `initialize` result envelope (protocol version, capabilities,
server identity).  The source also sets the session flag to true; in the
embedding the flag transition happens in `handleRequest`. -/
def initResultResponse (id : Json) : HttpResponse :=
  { status := 200
    body := Json.obj [("jsonrpc", Json.str "2.0"), ("id", id),
      ("result", Json.obj [
        ("protocolVersion", Json.str "2024-11-05"),
        ("capabilities", Json.obj [("tools", Json.obj [])]),
        ("serverInfo", Json.obj [("name", Json.str "zerank-mcp"),
                                 ("version", Json.str "0.1.0")])])] }

/-- `MCPServer.handlePing`: an empty result object. -/
def handlePing (id : Json) : HttpResponse :=
  { status := 200
    body := Json.obj [("jsonrpc", Json.str "2.0"), ("id", id),
                      ("result", Json.obj [])] }

/-- `MCPServer.listTools`: the single `get_reranking` tool descriptor. -/
def listTools (id : Json) : HttpResponse :=
  { status := 200
    body := Json.obj [("jsonrpc", Json.str "2.0"), ("id", id),
      ("result", Json.obj [("tools", Json.arr [
        Json.obj [
          ("name", Json.str "get_reranking"),
          ("description", Json.str "Get the reranked document listing"),
          ("inputSchema", Json.obj [
            ("type", Json.str "object"),
            ("properties", Json.obj [
              ("query", Json.obj [
                ("type", Json.str "string"),
                ("description", Json.str "The search query"),
                ("minLength", Json.num 1),
                ("maxLength", Json.num 10000)]),
              ("documents", Json.obj [
                ("type", Json.str "array"),
                ("description", Json.str "Array of documents to rerank"),
                ("items", Json.obj [("type", Json.str "string")]),
                ("minItems", Json.num 1),
                ("maxItems", Json.num 1000)]),
              ("api_key", Json.obj [
                ("type", Json.str "string"),
                ("description", Json.str "API key for authentication"),
                ("minLength", Json.num 1)])]),
            ("required", Json.arr [Json.str "query", Json.str "documents",
                                   Json.str "api_key"])])]])])] }

/-- `MCPServer.handleRequest` of the Durable-Object variant.  `initFlag` is
the current value of the session flag `this.initFlag` (named `initialized`
in the source); `rawBody` is the outcome of `request.json()` (`.error` when
the body is malformed JSON, which the catch turns into a parse-error
response).  The jsonrpc version literal is checked before any method
dispatch.  Returns the new session flag, the outbound HTTP requests issued,
and the response. -/
def handleRequest (initFlag : Bool) (rawBody : Except String RpcRequest)
    (world : FetchOutcome) : Bool × List HttpRequest × HttpResponse :=
  match rawBody with
  | .error msg => (initFlag, [], createErrorResponse msg Json.null PARSE_ERR_CODE)
  | .ok body =>
      if body.jsonrpc ≠ some "2.0" then
        (initFlag, [],
         createErrorResponse "Invalid JSON-RPC version" body.id INVALID_REQUEST_CODE)
      else if body.rpcMethod = "initialize" then
        (true, [], initResultResponse body.id)
      else if body.rpcMethod = "initialized" then
        (initFlag, [], { status := 204, body := Json.null })
      else if body.rpcMethod = "ping" then
        (initFlag, [], handlePing body.id)
      else if body.rpcMethod = "tools/list" then
        (initFlag, [], listTools body.id)
      else if body.rpcMethod = "tools/call" then
        let out := callTool body.params body.id world
        (initFlag, out.1, out.2)
      else
        (initFlag, [], createErrorResponse "Unknown method" body.id METHOD_NOT_FOUND_CODE)

/-! ## Helper lemmas -/

/-- The field extraction applied to the upstream `results` array is the
identity on the modelled elements. -/
theorem map_extract_eq (rs : List RerankResult) :
    (rs.map fun r =>
      ({ index := r.index, relevance_score := r.relevance_score } : RerankResult)) = rs := by
  induction rs with
  | nil => rfl
  | cons a t ih => simp [ih]

/-- String values of a JSON array of strings. -/
theorem stringsElems_map_str (docs : List String) :
    Json.stringsElems (docs.map Json.str) = docs := by
  induction docs with
  | nil => rfl
  | cons d rest ih => simp [Json.stringsElems, Json.strings, ih]

/-- On validated arguments, `rerankRequestParse` returns them unchanged. -/
theorem rerankRequestParse_ok (args : RerankArgs) (h : rerankRequestCheck args = true) :
    rerankRequestParse args = .ok args := by
  simp [rerankRequestParse, h]

/-- A `get_reranking` call with validated arguments issues exactly the one
request built by `makeRerankRequest`. -/
theorem callTool_requests_valid (args : RerankArgs) (id : Json) (world : FetchOutcome)
    (h : rerankRequestCheck args = true) :
    (callTool ⟨"get_reranking", args⟩ id world).1 =
      [(makeRerankRequest args.query args.documents args.api_key world).1] := by
  unfold callTool
  rw [show (⟨"get_reranking", args⟩ : ToolCallParams).arguments = args from rfl,
    rerankRequestParse_ok args h]
  simp only [if_pos rfl]
  cases hres : (makeRerankRequest args.query args.documents args.api_key world).2 <;>
    simp [hres]

/-- A tool call issues at most one outbound request — in particular no
retry is ever made. -/
theorem callTool_requests_length (params : ToolCallParams) (id : Json)
    (world : FetchOutcome) : (callTool params id world).1.length ≤ 1 := by
  unfold callTool
  split
  · cases hp : rerankRequestParse params.arguments with
    | error msg => simp
    | ok v =>
        cases hres : (makeRerankRequest v.query v.documents v.api_key world).2 <;> simp [hres]
  · simp

/-- Every tool call answers with the success envelope, an invalid-params
error response, or a method-not-found error response. -/
theorem callTool_snd_cases (params : ToolCallParams) (id : Json) (world : FetchOutcome) :
    (∃ response, (callTool params id world).2 = toolCallSuccess id response) ∨
    (∃ msg, (callTool params id world).2 = createErrorResponse msg id INVALID_PARAMS_CODE) ∨
    (∃ msg, (callTool params id world).2 = createErrorResponse msg id METHOD_NOT_FOUND_CODE) := by
  unfold callTool
  split
  · cases hp : rerankRequestParse params.arguments with
    | error msg => exact Or.inr (Or.inl ⟨msg, rfl⟩)
    | ok v =>
        cases hres : (makeRerankRequest v.query v.documents v.api_key world).2 with
        | error msg =>
            refine Or.inr (Or.inl ⟨msg, ?_⟩)
            simp [hres]
        | ok response =>
            refine Or.inl ⟨response, ?_⟩
            simp [hres]
  · exact Or.inr (Or.inr ⟨_, rfl⟩)

/-! ## Claims -/

/-- C1: whenever the `get_reranking` arguments violate the RerankRequest
constraints (query length outside [1,10000], documents count outside
[1,1000], some document empty after trimming, or empty api_key), the call
returns an invalid-params (-32602) error and issues no outbound HTTP
request. -/
theorem c1_invalid_args_rejected_before_outbound (args : RerankArgs) (id : Json)
    (world : FetchOutcome)
    (h : args.query.length < 1 ∨ 10000 < args.query.length ∨
         args.documents.length < 1 ∨ 1000 < args.documents.length ∨
         (∃ doc ∈ args.documents, (jsTrim doc).length = 0) ∨
         args.api_key.length < 1) :
    callTool ⟨"get_reranking", args⟩ id world =
      ([], createErrorResponse "Invalid rerank request arguments" id INVALID_PARAMS_CODE) ∧
    INVALID_PARAMS_CODE = -32602 := by
  have hcheck : rerankRequestCheck args = false := by
    rcases Bool.eq_false_or_eq_true (rerankRequestCheck args) with ht | hf
    case inr => exact hf
    · exfalso
      simp only [rerankRequestCheck, Bool.and_eq_true, decide_eq_true_eq,
        List.all_eq_true] at ht
      obtain ⟨⟨⟨⟨⟨h1, h2⟩, h3⟩, h4⟩, h5⟩, h6⟩ := ht
      rcases h with h | h | h | h | ⟨doc, hmem, hdoc⟩ | h
      · omega
      · omega
      · omega
      · omega
      · have := h5 doc hmem
        simp only [decide_eq_true_eq] at this
        omega
      · omega
  refine ⟨?_, rfl⟩
  simp [callTool, rerankRequestParse, hcheck]

/-- C1 witness: an empty query is rejected with no outbound call. -/
theorem c1_witness :
    callTool ⟨"get_reranking", ⟨"", ["doc"], "key"⟩⟩ Json.null
        (FetchOutcome.response 200 ⟨none⟩) =
      ([], createErrorResponse "Invalid rerank request arguments" Json.null
        INVALID_PARAMS_CODE) ∧
    INVALID_PARAMS_CODE = -32602 :=
  c1_invalid_args_rejected_before_outbound ⟨"", ["doc"], "key"⟩ Json.null
    (FetchOutcome.response 200 ⟨none⟩) (Or.inl (by decide))

/-- C7: a `tools/call` whose tool name is not `get_reranking` gets a
method-not-found (-32601) error response, with no outbound request issued
(so neither validation nor the rerank client runs) and no raise. -/
theorem c7_unknown_tool_method_not_found (name : String) (args : RerankArgs)
    (id : Json) (world : FetchOutcome) (h : name ≠ "get_reranking") :
    callTool ⟨name, args⟩ id world =
      ([], createErrorResponse ("Unknown tool: " ++ name) id METHOD_NOT_FOUND_CODE) ∧
    METHOD_NOT_FOUND_CODE = -32601 := by
  refine ⟨?_, rfl⟩
  simp [callTool, h]

/-- C7 witness: an unknown tool name gets the method-not-found response. -/
theorem c7_witness :
    callTool ⟨"other_tool", ⟨"q", ["d"], "k"⟩⟩ Json.null
        (FetchOutcome.response 200 ⟨none⟩) =
      ([], createErrorResponse ("Unknown tool: " ++ "other_tool") Json.null
        METHOD_NOT_FOUND_CODE) ∧
    METHOD_NOT_FOUND_CODE = -32601 :=
  c7_unknown_tool_method_not_found "other_tool" ⟨"q", ["d"], "k"⟩ Json.null
    (FetchOutcome.response 200 ⟨none⟩) (by decide)

/-- C3: every validated rerank invocation sends exactly one POST to the
fixed endpoint whose JSON body has exactly the fields `query` and
`documents` (equal to the validated inputs); the api_key appears only in
the `Authorization: Bearer` header — the body has no `api_key` field, and
(unless the key happens to coincide with the query or a document) the key
does not occur among the body's string values at all. -/
theorem c3_outbound_request_shape (args : RerankArgs) (id : Json) (world : FetchOutcome)
    (h : rerankRequestCheck args = true) :
    (callTool ⟨"get_reranking", args⟩ id world).1 =
      [{ url := ZERANK_API_BASE
         httpMethod := "POST"
         authorization := "Bearer " ++ args.api_key
         contentType := "application/json"
         body := Json.obj [("query", Json.str args.query),
                           ("documents", Json.arr (args.documents.map Json.str))] }] ∧
    (∀ req ∈ (callTool ⟨"get_reranking", args⟩ id world).1,
       Json.lookup req.body "api_key" = none) ∧
    (args.api_key ∉ args.query :: args.documents →
      ∀ req ∈ (callTool ⟨"get_reranking", args⟩ id world).1,
        args.api_key ∉ Json.strings req.body) := by
  have hreqs := callTool_requests_valid args id world h
  have hfst : (makeRerankRequest args.query args.documents args.api_key world).1 =
      { url := ZERANK_API_BASE
        httpMethod := "POST"
        authorization := "Bearer " ++ args.api_key
        contentType := "application/json"
        body := Json.obj [("query", Json.str args.query),
                          ("documents", Json.arr (args.documents.map Json.str))] } := rfl
  refine ⟨by rw [hreqs, hfst], ?_, ?_⟩
  · intro req hreq
    rw [hreqs, hfst] at hreq
    simp only [List.mem_singleton] at hreq
    subst hreq
    rfl
  · intro hkey req hreq
    rw [hreqs, hfst] at hreq
    simp only [List.mem_singleton] at hreq
    subst hreq
    have hstrings : Json.strings (Json.obj [("query", Json.str args.query),
        ("documents", Json.arr (args.documents.map Json.str))]) =
        args.query :: args.documents := by
      simp [Json.strings, Json.stringsFields, Json.stringsElems,
        stringsElems_map_str]
    simpa [hstrings] using hkey

/-- C3 witness: the request issued for concrete validated arguments. -/
theorem c3_witness :
    (callTool ⟨"get_reranking", ⟨"ml", ["a", "b"], "secret"⟩⟩ Json.null
        (FetchOutcome.response 200 ⟨none⟩)).1 =
      [{ url := ZERANK_API_BASE
         httpMethod := "POST"
         authorization := "Bearer " ++ "secret"
         contentType := "application/json"
         body := Json.obj [("query", Json.str "ml"),
                           ("documents", Json.arr (["a", "b"].map Json.str))] }] ∧
    (∀ req ∈ (callTool ⟨"get_reranking", ⟨"ml", ["a", "b"], "secret"⟩⟩ Json.null
        (FetchOutcome.response 200 ⟨none⟩)).1,
       Json.lookup req.body "api_key" = none) ∧
    ("secret" ∉ "ml" :: ["a", "b"] →
      ∀ req ∈ (callTool ⟨"get_reranking", ⟨"ml", ["a", "b"], "secret"⟩⟩ Json.null
          (FetchOutcome.response 200 ⟨none⟩)).1,
        "secret" ∉ Json.strings req.body) :=
  c3_outbound_request_shape ⟨"ml", ["a", "b"], "secret"⟩ Json.null
    (FetchOutcome.response 200 ⟨none⟩) (by decide)

/-- C4: a non-2xx upstream status makes the rerank client fail with the
status-determined message — 401 gives "Invalid API key", 429 gives
"Rate limit exceeded", anything else gives a message containing the literal
numeric status code — and no outbound retry is ever made (every tool call
issues at most one request). -/
theorem c4_upstream_status_mapping (query : String) (documents : List String)
    (apiKey : String) (status : Nat) (body : UpstreamBody)
    (h : ¬ (200 ≤ status ∧ status ≤ 299)) :
    (makeRerankRequest query documents apiKey (.response status body)).2 =
      .error (if status = 401 then "Invalid API key"
              else if status = 429 then "Rate limit exceeded"
              else "API error: " ++ toString status) ∧
    (status ≠ 401 → status ≠ 429 →
      ∃ pre, ("API error: " ++ toString status) = pre ++ toString status) ∧
    (∀ params id world, (callTool params id world).1.length ≤ 1) := by
  have hok : (200 ≤ status && status ≤ 299) = false := by
    rcases Bool.eq_false_or_eq_true (200 ≤ status && status ≤ 299) with ht | hf
    · exfalso
      simp only [Bool.and_eq_true, decide_eq_true_eq] at ht
      exact h ht
    · exact hf
  refine ⟨?_, fun _ _ => ⟨"API error: ", rfl⟩, callTool_requests_length⟩
  simp only [makeRerankRequest, hok, Bool.false_eq_true, if_false]
  split
  · next h401 => simp [h401]
  · next h401 =>
      split
      · next h429 => simp [h401, h429]
      · next h429 => simp [h401, h429]

/-- C4 witness: upstream status 500 produces the literal-status message. -/
theorem c4_witness :
    (makeRerankRequest "q" ["d"] "k" (.response 500 ⟨none⟩)).2 =
      .error (if 500 = 401 then "Invalid API key"
              else if 500 = 429 then "Rate limit exceeded"
              else "API error: " ++ toString 500) ∧
    (500 ≠ 401 → 500 ≠ 429 →
      ∃ pre, ("API error: " ++ toString 500) = pre ++ toString 500) ∧
    (∀ params id world, (callTool params id world).1.length ≤ 1) :=
  c4_upstream_status_mapping "q" ["d"] "k" 500 ⟨none⟩ (by decide)

/-- C5: a 2xx upstream response whose body is schema-invalid — missing
`results`, an element with a non-integer index or an index outside
[0,1000] or a relevance score outside [0,1], or a `results` array of 0 or
more than 1000 elements — fails the whole rerank invocation, and the tool
call returns an error response (no partially filtered results). -/
theorem c5_schema_violation_fails_closed (args : RerankArgs) (id : Json)
    (status : Nat) (body : UpstreamBody)
    (hargs : rerankRequestCheck args = true)
    (hok : 200 ≤ status ∧ status ≤ 299)
    (hbad : body.results = none ∨
            ∃ rs, body.results = some rs ∧
              (rs.length = 0 ∨ 1000 < rs.length ∨
               ∃ r ∈ rs, ¬ (r.index.den = 1 ∧ 0 ≤ r.index ∧ r.index ≤ 1000 ∧
                            0 ≤ r.relevance_score ∧ r.relevance_score ≤ 1))) :
    ∃ msg,
      (makeRerankRequest args.query args.documents args.api_key
        (.response status body)).2 = .error msg ∧
      (callTool ⟨"get_reranking", args⟩ id (.response status body)).2 =
        createErrorResponse msg id INVALID_PARAMS_CODE := by
  have hokb : (200 ≤ status && status ≤ 299) = true := by
    simp [hok.1, hok.2]
  have herr : ∃ msg,
      (makeRerankRequest args.query args.documents args.api_key
        (.response status body)).2 = .error msg := by
    rcases hbad with hnone | ⟨rs, hsome, hrs⟩
    · refine ⟨"Invalid API response format", ?_⟩
      simp [makeRerankRequest, hokb, hnone]
    · have : (makeRerankRequest args.query args.documents args.api_key
          (.response status body)).2 = rerankResponseParse rs := by
        simp [makeRerankRequest, hokb, hsome, map_extract_eq]
      rw [this]
      unfold rerankResponseParse
      split
      · exact ⟨_, rfl⟩
      · split
        · exact ⟨_, rfl⟩
        · split
          · next hlen1 hlen2 hall =>
              exfalso
              rcases hrs with h0 | h1000 | ⟨r, hmem, hr⟩
              · omega
              · omega
              · have := List.all_eq_true.mp hall r hmem
                simp only [rerankResultCheck, Bool.and_eq_true, decide_eq_true_eq] at this
                exact hr ⟨this.1.1.1.1, this.1.1.1.2, this.1.1.2, this.1.2, this.2⟩
          · exact ⟨_, rfl⟩
  obtain ⟨msg, hmsg⟩ := herr
  refine ⟨msg, hmsg, ?_⟩
  unfold callTool
  rw [show (⟨"get_reranking", args⟩ : ToolCallParams).arguments = args from rfl,
    rerankRequestParse_ok args hargs]
  simp only [if_pos rfl]
  simp [hmsg]

/-- C5 witness: a 2xx response with an empty `results` array fails the
whole invocation. -/
theorem c5_witness :
    ∃ msg,
      (makeRerankRequest "ml" ["a", "b"] "k" (.response 200 ⟨some []⟩)).2 =
        .error msg ∧
      (callTool ⟨"get_reranking", ⟨"ml", ["a", "b"], "k"⟩⟩ Json.null
          (.response 200 ⟨some []⟩)).2 =
        createErrorResponse msg Json.null INVALID_PARAMS_CODE :=
  c5_schema_violation_fails_closed ⟨"ml", ["a", "b"], "k"⟩ Json.null 200
    ⟨some []⟩ (by decide) (by decide) (Or.inr ⟨[], rfl, Or.inl rfl⟩)

/-- C2: a well-formed 2xx upstream response round-trips — the tool call
result is a single text content item whose text is the serialization of
exactly `\x7b results: [...] \x7d` with the same elements in the same
order as the upstream response. -/
theorem c2_roundtrip (args : RerankArgs) (id : Json) (status : Nat)
    (rs : List RerankResult)
    (hargs : rerankRequestCheck args = true)
    (hok : 200 ≤ status ∧ status ≤ 299)
    (hlen : 1 ≤ rs.length ∧ rs.length ≤ 1000)
    (helem : ∀ r ∈ rs, r.index.den = 1 ∧ 0 ≤ r.index ∧ r.index ≤ 1000 ∧
                       0 ≤ r.relevance_score ∧ r.relevance_score ≤ 1) :
    (callTool ⟨"get_reranking", args⟩ id (.response status ⟨some rs⟩)).2 =
      { status := 200
        body := Json.obj [("jsonrpc", Json.str "2.0"), ("id", id),
          ("result", Json.obj [("content", Json.arr [
            Json.obj [("type", Json.str "text"),
              ("text", Json.str (Json.render (Json.obj [("results",
                Json.arr (rs.map RerankResult.toJson))])))]])])] } := by
  have hokb : (200 ≤ status && status ≤ 299) = true := by
    simp [hok.1, hok.2]
  have hall : rs.all rerankResultCheck = true := by
    rw [List.all_eq_true]
    intro r hmem
    obtain ⟨h1, h2, h3, h4, h5⟩ := helem r hmem
    simp [rerankResultCheck, h1, h2, h3, h4, h5]
  have hparse : rerankResponseParse rs = .ok ⟨rs⟩ := by
    unfold rerankResponseParse
    rw [if_neg (by omega), if_neg (by omega), if_pos hall]
  have hmake : (makeRerankRequest args.query args.documents args.api_key
      (.response status ⟨some rs⟩)).2 = .ok ⟨rs⟩ := by
    simp [makeRerankRequest, hokb, map_extract_eq, hparse]
  unfold callTool
  rw [show (⟨"get_reranking", args⟩ : ToolCallParams).arguments = args from rfl,
    rerankRequestParse_ok args hargs]
  simp only [if_pos rfl]
  simp [hmake, toolCallSuccess, RerankResponse.toJson]

/-- C2 witness: the spec's example upstream response
`\x7b results: [(0, 0.9), (1, 0.2)] \x7d` round-trips. -/
theorem c2_witness :
    (callTool ⟨"get_reranking", ⟨"ml", ["a", "b"], "k"⟩⟩ Json.null
        (.response 200 ⟨some [⟨0, mkRat 9 10⟩, ⟨1, mkRat 1 5⟩]⟩)).2 =
      { status := 200
        body := Json.obj [("jsonrpc", Json.str "2.0"), ("id", Json.null),
          ("result", Json.obj [("content", Json.arr [
            Json.obj [("type", Json.str "text"),
              ("text", Json.str (Json.render (Json.obj [("results",
                Json.arr ([⟨0, mkRat 9 10⟩, ⟨1, mkRat 1 5⟩].map
                  (RerankResult.toJson)))])))]])])] } :=
  c2_roundtrip ⟨"ml", ["a", "b"], "k"⟩ Json.null 200
    [⟨0, mkRat 9 10⟩, ⟨1, mkRat 1 5⟩] (by decide) (by decide) (by decide)
    (by decide)

/-- C8: in the protocol-conformant variant, a request whose `jsonrpc` field
is missing or differs from the literal "2.0" gets the invalid-request
(-32600) error, with the session flag unchanged and no outbound request —
i.e. before any method dispatch. -/
theorem c8_jsonrpc_version_rejected (initFlag : Bool) (body : RpcRequest)
    (world : FetchOutcome) (h : body.jsonrpc ≠ some "2.0") :
    handleRequest initFlag (.ok body) world =
      (initFlag, [],
       createErrorResponse "Invalid JSON-RPC version" body.id INVALID_REQUEST_CODE) ∧
    INVALID_REQUEST_CODE = -32600 := by
  refine ⟨?_, rfl⟩
  simp [handleRequest, h]

/-- C8 witness: a missing `jsonrpc` field on a `tools/call` request is
rejected before dispatch. -/
theorem c8_witness :
    handleRequest false
        (.ok ⟨none, Json.null, "tools/call", ⟨"get_reranking", ⟨"ml", ["a"], "k"⟩⟩⟩)
        (FetchOutcome.response 200 ⟨none⟩) =
      (false, [],
       createErrorResponse "Invalid JSON-RPC version" Json.null INVALID_REQUEST_CODE) ∧
    INVALID_REQUEST_CODE = -32600 :=
  c8_jsonrpc_version_rejected false
    ⟨none, Json.null, "tools/call", ⟨"get_reranking", ⟨"ml", ["a"], "k"⟩⟩⟩
    (FetchOutcome.response 200 ⟨none⟩) (by decide)

/-- C9: handling an `initialize` request sets the session flag to true, and
the outbound requests and the response of every inbound request are
identical whether the flag is currently true or false — the flag is
written but never read to gate behavior. -/
theorem c9_session_flag_write_only (initFlag : Bool)
    (rawBody : Except String RpcRequest) (world : FetchOutcome) :
    (∀ body, rawBody = .ok body → body.jsonrpc = some "2.0" →
       body.rpcMethod = "initialize" →
       (handleRequest initFlag rawBody world).1 = true) ∧
    (handleRequest true rawBody world).2 = (handleRequest false rawBody world).2 := by
  constructor
  · rintro body rfl hj hm
    simp [handleRequest, hj, hm]
  · cases rawBody with
    | error e => rfl
    | ok body =>
        simp only [handleRequest]
        split_ifs <;> rfl

/-- C9 witness: `initialize` sets the flag from false to true, and a
`tools/call` request gets the same answer under both flag values. -/
theorem c9_witness :
    (handleRequest false
        (.ok ⟨some "2.0", Json.null, "initialize", ⟨"t", ⟨"q", ["d"], "k"⟩⟩⟩)
        (FetchOutcome.response 200 ⟨none⟩)).1 = true ∧
    (handleRequest true
        (.ok ⟨some "2.0", Json.null, "tools/call", ⟨"get_reranking", ⟨"ml", ["a"], "k"⟩⟩⟩)
        (FetchOutcome.response 401 ⟨none⟩)).2 =
    (handleRequest false
        (.ok ⟨some "2.0", Json.null, "tools/call", ⟨"get_reranking", ⟨"ml", ["a"], "k"⟩⟩⟩)
        (FetchOutcome.response 401 ⟨none⟩)).2 :=
  ⟨(c9_session_flag_write_only false
      (.ok ⟨some "2.0", Json.null, "initialize", ⟨"t", ⟨"q", ["d"], "k"⟩⟩⟩)
      (FetchOutcome.response 200 ⟨none⟩)).1 _ rfl rfl rfl,
   (c9_session_flag_write_only false
      (.ok ⟨some "2.0", Json.null, "tools/call", ⟨"get_reranking", ⟨"ml", ["a"], "k"⟩⟩⟩)
      (FetchOutcome.response 401 ⟨none⟩)).2⟩

/-- C10: every failure inside a `get_reranking` tool call — input
validation, upstream 401/429/other non-2xx statuses, transport errors,
upstream schema violations — yields an error response carrying the single
code -32602 (invalid params) and HTTP status 500; the only alternative is
the success envelope. -/
theorem c10_all_failures_invalid_params_500 (args : RerankArgs) (id : Json)
    (world : FetchOutcome) :
    (∃ response, (callTool ⟨"get_reranking", args⟩ id world).2 =
       toolCallSuccess id response) ∨
    ((∃ msg, (callTool ⟨"get_reranking", args⟩ id world).2 =
        createErrorResponse msg id INVALID_PARAMS_CODE) ∧
     (callTool ⟨"get_reranking", args⟩ id world).2.status = 500 ∧
     INVALID_PARAMS_CODE = -32602) := by
  unfold callTool
  simp only [if_pos rfl]
  cases hp : rerankRequestParse (⟨"get_reranking", args⟩ : ToolCallParams).arguments with
  | error msg => exact Or.inr ⟨⟨msg, rfl⟩, rfl, rfl⟩
  | ok v =>
      cases hres : (makeRerankRequest v.query v.documents v.api_key world).2 with
      | error msg =>
          refine Or.inr ⟨⟨msg, ?_⟩, ?_, rfl⟩
          · simp [hres]
          · simp [hres, createErrorResponse]
      | ok response =>
          refine Or.inl ⟨response, ?_⟩
          simp [hres]

/-- C6: every validation or upstream failure during handling is caught and
converted into a JSON-RPC error object (the response body is always a
result envelope, the 204 no-content acknowledgment, or an error object —
nothing raises past `handleRequest`), and the error message is taken
verbatim from the triggering failure: a body-parse failure message and a
rerank-client failure message each appear unchanged in the response. -/
theorem c6_failures_caught_verbatim (initFlag : Bool)
    (rawBody : Except String RpcRequest) (world : FetchOutcome) :
    ((∃ r, Json.lookup ((handleRequest initFlag rawBody world).2.2).body "result" =
        some r) ∨
     (handleRequest initFlag rawBody world).2.2.status = 204 ∨
     (∃ code msg,
        Json.lookup ((handleRequest initFlag rawBody world).2.2).body "error" =
          some (Json.obj [("code", Json.num code), ("message", Json.str msg)]))) ∧
    (∀ e, rawBody = .error e →
       (handleRequest initFlag rawBody world).2.2 =
         createErrorResponse e Json.null PARSE_ERR_CODE) ∧
    (∀ body msg, rawBody = .ok body → body.jsonrpc = some "2.0" →
       body.rpcMethod = "tools/call" → body.params.name = "get_reranking" →
       rerankRequestCheck body.params.arguments = true →
       (makeRerankRequest body.params.arguments.query body.params.arguments.documents
          body.params.arguments.api_key world).2 = .error msg →
       (handleRequest initFlag rawBody world).2.2 =
         createErrorResponse msg body.id INVALID_PARAMS_CODE) := by
  refine ⟨?_, ?_, ?_⟩
  · cases rawBody with
    | error e => exact Or.inr (Or.inr ⟨_, _, rfl⟩)
    | ok body =>
        simp only [handleRequest]
        split_ifs with h1 h2 h3 h4 h5 h6
        · exact Or.inr (Or.inr ⟨_, _, rfl⟩)
        · exact Or.inl ⟨_, rfl⟩
        · exact Or.inr (Or.inl rfl)
        · exact Or.inl ⟨_, rfl⟩
        · exact Or.inl ⟨_, rfl⟩
        · rcases callTool_snd_cases body.params body.id world with
            ⟨resp, hcall⟩ | ⟨msg, hcall⟩ | ⟨msg, hcall⟩
          · refine Or.inl ?_
            show ∃ r, Json.lookup ((callTool body.params body.id world).2).body
              "result" = some r
            rw [hcall]
            exact ⟨_, rfl⟩
          · refine Or.inr (Or.inr ?_)
            show ∃ code m, Json.lookup ((callTool body.params body.id world).2).body
              "error" = some (Json.obj [("code", Json.num code), ("message", Json.str m)])
            rw [hcall]
            exact ⟨_, _, rfl⟩
          · refine Or.inr (Or.inr ?_)
            show ∃ code m, Json.lookup ((callTool body.params body.id world).2).body
              "error" = some (Json.obj [("code", Json.num code), ("message", Json.str m)])
            rw [hcall]
            exact ⟨_, _, rfl⟩
        · exact Or.inr (Or.inr ⟨_, _, rfl⟩)
  · rintro e rfl
    rfl
  · rintro body msg rfl hj hm hname hargs hres
    simp only [handleRequest]
    rw [if_neg (by simp [hj]), if_neg (by rw [hm]; decide),
      if_neg (by rw [hm]; decide), if_neg (by rw [hm]; decide),
      if_neg (by rw [hm]; decide), if_pos hm]
    show (callTool body.params body.id world).2 = _
    unfold callTool
    rw [if_pos hname, rerankRequestParse_ok body.params.arguments hargs]
    simp [hres]

/-- C6 witness: a malformed-body message and an upstream 401 message each
reach the response verbatim. -/
theorem c6_witness :
    (handleRequest false (.error "Unexpected end of JSON input")
        (FetchOutcome.response 200 ⟨none⟩)).2.2 =
      createErrorResponse "Unexpected end of JSON input" Json.null PARSE_ERR_CODE ∧
    (handleRequest false
        (.ok ⟨some "2.0", Json.null, "tools/call", ⟨"get_reranking", ⟨"ml", ["a"], "k"⟩⟩⟩)
        (FetchOutcome.response 401 ⟨none⟩)).2.2 =
      createErrorResponse "Invalid API key" Json.null INVALID_PARAMS_CODE :=
  ⟨(c6_failures_caught_verbatim false (.error "Unexpected end of JSON input")
      (FetchOutcome.response 200 ⟨none⟩)).2.1 "Unexpected end of JSON input" rfl,
   (c6_failures_caught_verbatim false
      (.ok ⟨some "2.0", Json.null, "tools/call", ⟨"get_reranking", ⟨"ml", ["a"], "k"⟩⟩⟩)
      (FetchOutcome.response 401 ⟨none⟩)).2.2 _ "Invalid API key" rfl rfl rfl rfl
      (by decide) rfl⟩

end Zerank
